import Mathlib

/-!
Verification of the PhotoMapperAI validation scripts.

The Python sources are shallowly embedded:
* bytes are `List Nat`, files are `GenFile` (name + content), directories are
  `Option (List GenFile)` (`none` = the directory does not exist);
* Python exceptions are modelled with `Except String`;
* Python's stable `sorted` is modelled with Mathlib's `List.insertionSort`
  (a stable sort; a stable sort w.r.t. a total preorder is unique);
* floats are modelled as exact rationals `ℚ`.
-/

namespace PhotoMapperAI

/-- A file inside a directory: its name and raw byte content. -/
structure GenFile where
  name : String
  content : List Nat
deriving DecidableEq

/-- Split a character list at every occurrence of `c`, mirroring Python
`str.split(c)` (so `"" ↦ [""]` and separators at the ends produce empty parts). -/
def splitOnChar (c : Char) : List Char → List (List Char)
  | [] => [[]]
  | x :: xs =>
    let rest := splitOnChar c xs
    if x = c then [] :: rest
    else
      match rest with
      | [] => [[x]]
      | r :: rs => (x :: r) :: rs

/-- Python `str.strip()`: drop whitespace at both ends. -/
def pyStrip (s : String) : String :=
  String.mk (((s.toList.dropWhile Char.isWhitespace).reverse.dropWhile Char.isWhitespace).reverse)

/-- Python `str.lower()`. -/
def pyLower (s : String) : String :=
  String.mk (s.toList.map Char.toLower)

/-- Python `", ".join(l)`. -/
def joinComma : List String → String
  | [] => ""
  | x :: xs => xs.foldl (fun acc y => acc ++ ", " ++ y) x

/-- Python `" ".join(l)`. -/
def joinSpace : List String → String
  | [] => ""
  | x :: xs => xs.foldl (fun acc y => acc ++ " " ++ y) x

/-- Index of the last `'.'` in a character list (Python `name.rfind('.')`,
as `Option` instead of `-1`). -/
def lastDotIdx : List Char → Option Nat
  | [] => none
  | c :: cs =>
    match lastDotIdx cs with
    | some i => some (i + 1)
    | none => if c = '.' then some 0 else none

/-- `pathlib.PurePath.suffix` of a file name: `name[i:]` for the last dot
index `i` when `0 < i < len(name) - 1`, else `""`. -/
def pathSuffix (name : String) : String :=
  let cs := name.toList
  match lastDotIdx cs with
  | none => ""
  | some i => if 0 < i ∧ i < cs.length - 1 then String.mk (cs.drop i) else ""

/-- `pathlib.PurePath.stem`: the name with its suffix removed. -/
def pathStem (name : String) : String :=
  let cs := name.toList
  String.mk (cs.take (cs.length - (pathSuffix name).toList.length))

/-- `_is_image` (both scripts): the lower-cased suffix is a recognized image
extension. -/
def isImage (name : String) : Bool :=
  [".jpg", ".jpeg", ".png", ".bmp", ".webp"].contains (pyLower (pathSuffix name))

/-- Association-list lookup by string key (model of a Python dict access). -/
def lookupKey {α : Type} (k : String) : List (String × α) → Option α
  | [] => none
  | (k', v) :: rest => if k' = k then some v else lookupKey k rest

/-! ## Artifact set algebra (`compare_portrait_sets.py` main,
`run_external_validation.py` lines 333-354)

Python set values are modelled by `List.dedup`; `sorted(...)` by
`List.insertionSort (· ≤ ·)` (`String`'s order is lexicographic). -/

/-- `sorted(set(ex) - set(gen))`. -/
def setMinus (ex gen : List String) : List String :=
  List.insertionSort (· ≤ ·) (ex.dedup.filter (fun i => decide (i ∉ gen)))

/-- `sorted(set(ex) & set(gen))`. -/
def setInter (ex gen : List String) : List String :=
  List.insertionSort (· ≤ ·) (ex.dedup.filter (fun i => decide (i ∈ gen)))

/-- `missing = sorted(expected_ids - generated_ids)`. -/
def missingIds (ex gen : List String) : List String := setMinus ex gen

/-- `unexpected = sorted(generated_ids - expected_ids)`. -/
def unexpectedIds (ex gen : List String) : List String := setMinus gen ex

/-- `common = sorted(expected_ids & generated_ids)`. -/
def commonIds (ex gen : List String) : List String := setInter ex gen

/-- `common_count = len(expected_set & generated_set)`
(`run_external_validation.py` line 338). -/
def commonCount (ex gen : List String) : Nat :=
  (ex.dedup.filter (fun i => decide (i ∈ gen))).length

/-- `coverage_percent = (common_count / len(expected_ids) * 100.0) if
expected_ids else 0.0` (`run_external_validation.py` line 339). -/
def coveragePercent (ex gen : List String) : ℚ :=
  if ex.isEmpty then 0 else (commonCount ex gen : ℚ) / (ex.length : ℚ) * 100

/-! ## Image header decoder (`compare_portrait_sets.py` `_jpeg_size`,
`_png_size`, `_read_dimensions`)

Decoders run in `Except String`: `byteAt` models Python list indexing, which
raises `IndexError` when out of range.  Python slices never raise and are
modelled with `take`/`drop`.  `jpegSize_never_raises` / `pngSize_never_raises`
below show the error branch is unreachable. -/

/-- `data[i]` on a byte buffer: `IndexError` when out of range. -/
def byteAt (data : List Nat) (i : Nat) : Except String Nat :=
  if h : i < data.length then Except.ok (data.get ⟨i, h⟩)
  else Except.error "IndexError: list index out of range"

/-- The marker-segment scan loop of `_jpeg_size` (lines 24-43), with the loop
index `i` explicit.  Each iteration advances `i`, so the loop terminates. -/
def jpegScan (data : List Nat) (i : Nat) : Except String (Option (Nat × Nat)) :=
  if _hguard : i + 9 < data.length then
    match byteAt data i with
    | Except.error e => Except.error e
    | Except.ok b0 =>
      if b0 ≠ 0xFF then jpegScan data (i + 1)
      else
        match byteAt data (i + 1) with
        | Except.error e => Except.error e
        | Except.ok marker =>
          if marker = 0xD8 ∨ marker = 0xD9 then jpegScan data (i + 2)
          else if i + 2 + 1 ≥ data.length then Except.ok none
          else
            match byteAt data (i + 2), byteAt data (i + 2 + 1) with
            | Except.ok s0, Except.ok s1 =>
              let segLen := s0 * 256 + s1
              if hseg : segLen < 2 ∨ i + 2 + segLen > data.length then Except.ok none
              else if marker = 0xC0 ∨ marker = 0xC1 ∨ marker = 0xC2 ∨ marker = 0xC3 then
                if i + 2 + 7 ≥ data.length then Except.ok none
                else
                  match byteAt data (i + 2 + 3), byteAt data (i + 2 + 4),
                      byteAt data (i + 2 + 5), byteAt data (i + 2 + 6) with
                  | Except.ok h1, Except.ok h2, Except.ok w1, Except.ok w2 =>
                    Except.ok (some (w1 * 256 + w2, h1 * 256 + h2))
                  | _, _, _, _ => Except.error "IndexError: list index out of range"
              else jpegScan data (i + 2 + segLen)
            | _, _ => Except.error "IndexError: list index out of range"
  else Except.ok none
termination_by data.length - i
decreasing_by
  · omega
  · omega
  · omega

/-- `_jpeg_size` (lines 19-44): SOI signature check, then the segment scan
from offset 2. -/
def jpegSize (data : List Nat) : Except String (Option (Nat × Nat)) :=
  if data.length < 4 then Except.ok none
  else
    match byteAt data 0 with
    | Except.error e => Except.error e
    | Except.ok b0 =>
      if b0 ≠ 0xFF then Except.ok none
      else
        match byteAt data 1 with
        | Except.error e => Except.error e
        | Except.ok b1 =>
          if b1 ≠ 0xD8 then Except.ok none else jpegScan data 2

/-- Big-endian interpretation of a byte list (`int.from_bytes(_, "big")`). -/
def fromBytesBE (bs : List Nat) : Nat :=
  bs.foldl (fun acc b => acc * 256 + b) 0

/-- The fixed 8-byte PNG signature. -/
def pngSig : List Nat := [0x89, 0x50, 0x4E, 0x47, 0x0D, 0x0A, 0x1A, 0x0A]

/-- The `IHDR` chunk tag bytes. -/
def ihdrTag : List Nat := [0x49, 0x48, 0x44, 0x52]

/-- `_png_size` (lines 47-56): signature check, `IHDR` tag at offset 12,
then two big-endian 32-bit fields.  Python slicing never raises, so this
decoder is straight-line. -/
def pngSize (data : List Nat) : Except String (Option (Nat × Nat)) :=
  if data.length < 24 ∨ data.take 8 ≠ pngSig then Except.ok none
  else if (data.drop 12).take 4 ≠ ihdrTag then Except.ok none
  else
    let w := fromBytesBE ((data.drop 16).take 4)
    let h := fromBytesBE ((data.drop 20).take 4)
    Except.ok (some (w, h))

/-- `_jpeg_size` as an `Option`: safe because `jpegSize_never_raises` shows
the error branch is unreachable. -/
def jpegSizeOpt (data : List Nat) : Option (Nat × Nat) :=
  match jpegSize data with
  | Except.ok o => o
  | Except.error _ => none

/-- `_png_size` as an `Option`. -/
def pngSizeOpt (data : List Nat) : Option (Nat × Nat) :=
  match pngSize data with
  | Except.ok o => o
  | Except.error _ => none

/-- `_read_dimensions` (lines 59-65): dispatch on the lower-cased suffix. -/
def readDimensions (f : GenFile) : Option (Nat × Nat) :=
  let ext := pyLower (pathSuffix f.name)
  if ext = ".jpg" ∨ ext = ".jpeg" then jpegSizeOpt f.content
  else if ext = ".png" then pngSizeOpt f.content
  else none

/-! ## Dominant-dimension histogram (`compare_portrait_sets.py` `_top_dims`) -/

/-- The bucket label `f"{d[0]}x{d[1]}"` of a decodable file. -/
def dimKey (f : GenFile) : Option String :=
  match readDimensions f with
  | none => none
  | some d => some (toString d.1 ++ "x" ++ toString d.2)

/-- `freq[key] = freq.get(key, 0) + 1` on an insertion-ordered dict,
modelled as an association list: bump an existing key in place, or append
the new key with count 1. -/
def bump (k : String) : List (String × Nat) → List (String × Nat)
  | [] => [(k, 1)]
  | (k', c) :: rest => if k' = k then (k', c + 1) :: rest else (k', c) :: bump k rest

/-- The `freq` dict of `_top_dims` after scanning `files` (lines 81-87):
keys in first-seen order, values the occurrence counts. -/
def freqList (files : List GenFile) : List (String × Nat) :=
  files.foldl
    (fun acc f =>
      match dimKey f with
      | none => acc
      | some k => bump k acc)
    []

/-- Descending-count order used by `sorted(freq.items(), key=lambda kv: kv[1],
reverse=True)`. -/
def byCountDesc (a b : String × Nat) : Prop := b.2 ≤ a.2

instance : DecidableRel byCountDesc := fun a b => Nat.decLe b.2 a.2

instance : IsTotal (String × Nat) byCountDesc := ⟨fun a b => Nat.le_total b.2 a.2⟩

instance : IsTrans (String × Nat) byCountDesc :=
  ⟨fun _ _ _ h1 h2 => Nat.le_trans h2 h1⟩

/-- `_top_dims` (lines 80-88): Python's `sorted` is a stable sort, modelled by
`List.insertionSort` (also stable), then `[:5]`. -/
def topDims (files : List GenFile) : List (String × Nat) :=
  (List.insertionSort byCountDesc (freqList files)).take 5

/-! ## Directory scans -/

/-- Name order used by `sorted(path.iterdir())`. -/
def byName (a b : GenFile) : Prop := a.name ≤ b.name

instance : DecidableRel byName :=
  fun a b => inferInstanceAs (Decidable (a.name ≤ b.name))

/-- `_list_generated_ids` (`run_external_validation.py` lines 183-190): a
missing directory yields `[]`; otherwise the sorted image files' stems. -/
def listGeneratedIds (dir : Option (List GenFile)) : List String :=
  match dir with
  | none => []
  | some files =>
    (((List.insertionSort byName files).filter (fun f => isImage f.name)).map
      (fun f => pathStem f.name))

/-- `_collect` (`compare_portrait_sets.py` lines 68-71): a missing directory
yields the empty mapping; otherwise the stem-to-file mapping over sorted
image files. -/
def collectFiles (dir : Option (List GenFile)) : List (String × GenFile) :=
  match dir with
  | none => []
  | some files =>
    ((List.insertionSort byName files).filter (fun f => isImage f.name)).map
      (fun f => (pathStem f.name, f))

/-! ## Stage executor (`run_external_validation.py` `_run`, lines 54-69)

`subprocess.run` is modelled by a `ProcOutcome`: the spawned process either
hits the timeout or completes with an exit code and whatever text it printed.
`_run` is invoked without output capture (streams are inherited), so the
`output` component is unused by `runStage`. -/

/-- Outcome of the spawned external process. -/
inductive ProcOutcome where
  | timedOut
  | completed (code : Int) (output : String)
deriving DecidableEq

/-- The timeout message of `_run` (line 63). -/
def timeoutMessage (timeoutSec : Nat) (cmd : List String) : String :=
  let joined := joinSpace cmd
  s!"Command timed out after {timeoutSec}s: {joined}"

/-- The execution-failure message of `_run` (line 68): it interpolates the
exit code and the command line — nothing else. -/
def failMessage (code : Int) (cmd : List String) : String :=
  let joined := joinSpace cmd
  s!"Command failed ({code}): {joined}"

/-- `_run(cmd, cwd, allow_nonzero, timeout_sec)`: timeout raises; a non-zero
exit code raises unless `allowNonzero`; otherwise the code is returned. -/
def runStage (cmd : List String) (outcome : ProcOutcome) (allowNonzero : Bool)
    (timeoutSec : Nat) : Except String Int :=
  match outcome with
  | ProcOutcome.timedOut => Except.error (timeoutMessage timeoutSec cmd)
  | ProcOutcome.completed code _output =>
    if code ≠ 0 ∧ allowNonzero = false then Except.error (failMessage code cmd)
    else Except.ok code

/-! ## Photo filename parsing (`run_external_validation.py`
`_parse_photo_filename`, lines 100-121)

The Python function raises `ValueError` on fewer than 3 tokens; its caller
catches that and skips the file, so the parse is modelled as an `Option`. -/

/-- `stem.split("_")`. -/
def splitUnderscore (s : String) : List String :=
  (splitOnChar '_' s.toList).map String.mk

/-- `_parse_photo_filename`: returns `(family_name, sur_name, external_id)`,
or `none` for fewer than 3 tokens. -/
def parsePhotoFilename (fileName : String) : Option (String × String × String) :=
  let parts := splitUnderscore (pathStem fileName)
  if parts.length < 3 then none
  else
    let externalId := parts.getLastD ""
    let names := parts.dropLast
    if names.length = 1 then some (names.headD "", "", externalId)
    else some (joinSpace names.dropLast, names.getLastD "", externalId)

/-! ## Team workflow driver (`run_external_validation.py` `main`, lines 275-411)

One team's per-run environment collects everything the outside world decides
for that team: the outcome of the prepare step (CSV resolution, lines
151-180), the outcomes of the two external stages, whether the mapped CSV
appeared, and the directory contents seen afterwards.  The `try` body of the
team loop is `teamBody`; the `except` clause and the `continue_on_error` flag
are `runTeams`. -/

/-- Per-team environment for a single run. -/
structure TeamEnv where
  name : String
  prepareOutcome : Except String Unit
  mapCmd : List String
  mapOutcome : ProcOutcome
  mappedCsvExists : Bool
  generateCmd : List String
  generateOutcome : ProcOutcome
  inputPhotosDir : Option (List GenFile)
  expectedPortraitsDir : Option (List GenFile)
  generatedDir : List GenFile

/-- Numeric results computed at the compare step (lines 333-357). -/
structure TeamStats where
  inputCount : Nat
  expectedCount : Nat
  generatedCount : Nat
  commonCount : Nat
  coveragePercent : ℚ
  avgExpectedKb : ℚ
  avgGeneratedKb : ℚ
  missingExpected : List String
  unexpectedGenerated : List String
deriving DecidableEq

/-- `_avg_file_kb` (lines 198-201): mean file size in KiB, `0.0` for `[]`. -/
def avgFileKb (files : List GenFile) : ℚ :=
  if files.isEmpty then 0
  else ((files.map (fun f => (f.content.length : ℚ))).sum) / (files.length : ℚ) / 1024

/-- Files of a directory that may not exist (`Path.glob("*")` yields nothing
for a missing directory). -/
def dirFiles (dir : Option (List GenFile)) : List GenFile :=
  match dir with
  | none => []
  | some files => files

/-- `len([p for p in team.input_photos_dir.iterdir() if p.is_file() and
_is_image(p)])` (line 346): `iterdir()` on a missing directory raises. -/
def countImages (dir : Option (List GenFile)) : Except String Nat :=
  match dir with
  | none => Except.error "FileNotFoundError: no such directory"
  | some files => Except.ok ((files.filter (fun f => isImage f.name)).length)

/-- The `try` body of the team loop (lines 281-358): prepare, map (non-zero
exit allowed), mapped-CSV existence check, generate (non-zero exit fatal),
then the compare-step statistics. -/
def teamBody (env : TeamEnv) (mapTimeoutSec generateTimeoutSec : Nat) :
    Except String TeamStats :=
  match env.prepareOutcome with
  | Except.error e => Except.error e
  | Except.ok _ =>
    match runStage env.mapCmd env.mapOutcome true mapTimeoutSec with
    | Except.error e => Except.error e
    | Except.ok _ =>
      if env.mappedCsvExists = false then
        let csvName := pyLower env.name ++ "_players.csv"
        Except.error s!"Mapped CSV not found: mapped_{csvName}"
      else
        match runStage env.generateCmd env.generateOutcome false generateTimeoutSec with
        | Except.error e => Except.error e
        | Except.ok _ =>
          let expectedIds := listGeneratedIds env.expectedPortraitsDir
          let generatedIds := listGeneratedIds (some env.generatedDir)
          match countImages env.inputPhotosDir with
          | Except.error e => Except.error e
          | Except.ok inputCount =>
            Except.ok
              { inputCount := inputCount
                expectedCount := expectedIds.length
                generatedCount := generatedIds.length
                commonCount := commonCount expectedIds generatedIds
                coveragePercent := coveragePercent expectedIds generatedIds
                avgExpectedKb := avgFileKb (dirFiles env.expectedPortraitsDir)
                avgGeneratedKb := avgFileKb env.generatedDir
                missingExpected := missingIds expectedIds generatedIds
                unexpectedGenerated := unexpectedIds expectedIds generatedIds }

/-- One row of `results` (the `TeamResult` dataclass, lines 36-51), with the
two path fields as names. -/
structure TeamResult where
  name : String
  status : String
  errorMsg : Option String
  input_count : Nat
  expected_count : Nat
  generated_count : Nat
  common_count : Nat
  coverage_percent : ℚ
  avg_expected_kb : ℚ
  avg_generated_kb : ℚ
  missing_expected : List String
  unexpected_generated : List String
  map_csv : Option String
  generated_dir : Option String
deriving DecidableEq

/-- The `TeamResult` appended on success (lines 341-358). -/
def okResult (env : TeamEnv) (s : TeamStats) : TeamResult :=
  { name := env.name
    status := "ok"
    errorMsg := none
    input_count := s.inputCount
    expected_count := s.expectedCount
    generated_count := s.generatedCount
    common_count := s.commonCount
    coverage_percent := s.coveragePercent
    avg_expected_kb := s.avgExpectedKb
    avg_generated_kb := s.avgGeneratedKb
    missing_expected := s.missingExpected
    unexpected_generated := s.unexpectedGenerated
    map_csv := some ("mapped_" ++ pyLower env.name ++ "_players.csv")
    generated_dir := some "Generated" }

/-- The `TeamResult` appended in the `except` clause (lines 359-377): status
`error`, the exception message, every numeric field zero, empty lists. -/
def errResult (teamName msg : String) : TeamResult :=
  { name := teamName
    status := "error"
    errorMsg := some msg
    input_count := 0
    expected_count := 0
    generated_count := 0
    common_count := 0
    coverage_percent := 0
    avg_expected_kb := 0
    avg_generated_kb := 0
    missing_expected := []
    unexpected_generated := []
    map_csv := none
    generated_dir := none }

/-- The result one team contributes when the loop is allowed to continue. -/
def resultOf (mapT genT : Nat) (env : TeamEnv) : TeamResult :=
  match teamBody env mapT genT with
  | Except.ok s => okResult env s
  | Except.error msg => errResult env.name msg

/-- The team loop (lines 275-379): returns the accumulated results and, when
`continueOnError` is false and a team failed, the propagating exception
message (processing stops there; the failed team's error row was already
appended, as in the source). -/
def runTeams (continueOnError : Bool) (mapT genT : Nat) :
    List TeamEnv → List TeamResult × Option String
  | [] => ([], none)
  | env :: rest =>
    match teamBody env mapT genT with
    | Except.ok s =>
      let tail := runTeams continueOnError mapT genT rest
      (okResult env s :: tail.1, tail.2)
    | Except.error msg =>
      if continueOnError then
        let tail := runTeams continueOnError mapT genT rest
        (errResult env.name msg :: tail.1, tail.2)
      else ([errResult env.name msg], some msg)

/-- The `## {name}` header written for a team (line 385). -/
def headerLine (teamName : String) : String := "## " ++ teamName ++ "\n\n"

/-- The lines written for one team (lines 385-411): header and status; on
error only the error line, otherwise the numeric block. -/
def teamBlock (r : TeamResult) : List String :=
  headerLine r.name :: ("- Status: " ++ r.status ++ "\n") ::
    (if r.status ≠ "ok" then
      [("- Error: " ++ (r.errorMsg.getD "None") ++ "\n\n")]
    else
      [("- Input photos: " ++ toString r.input_count ++ "\n"),
       ("- Expected portraits: " ++ toString r.expected_count ++ "\n"),
       ("- Generated portraits: " ++ toString r.generated_count ++ "\n"),
       ("- Common IDs: " ++ toString r.common_count ++ "\n"),
       ("- Missing expected IDs: " ++ toString r.missing_expected.length ++ "\n"),
       ("- Unexpected generated IDs: " ++ toString r.unexpected_generated.length ++ "\n")])

/-- The report file contents (lines 381-411) as the list of written chunks. -/
def reportLines (results : List TeamResult) : List String :=
  "# External Validation Report\n\n" :: (results.map teamBlock).flatten

/-- The run: the team loop, then — only if no exception propagated — the
report.  `Except.error` means the run aborted and no report was written
(lines 381, 441-446). -/
def runMain (continueOnError : Bool) (mapT genT : Nat) (envs : List TeamEnv) :
    Except String (List String) :=
  let outcome := runTeams continueOnError mapT genT envs
  match outcome.2 with
  | some msg => Except.error msg
  | none => Except.ok (reportLines outcome.1)

/-! ## Suite runner presets (`run_validation_suite.py` lines 27-90) -/

/-- The `RunPreset` frozen dataclass. -/
structure RunPreset where
  key : String
  folder : String
  face_detection : String
  description : String
deriving DecidableEq

/-- The `"run"` preset. -/
def presetRun : RunPreset :=
  { key := "run"
    folder := "Validation_Run"
    face_detection := "llava:7b,qwen3-vl"
    description := "Default external validation run (llava with qwen fallback)." }

/-- The `"opencv"` preset. -/
def presetOpencv : RunPreset :=
  { key := "opencv"
    folder := "Validation_Run_opencv"
    face_detection := "opencv-dnn"
    description := "OpenCV DNN face detection." }

/-- The `"llava"` preset. -/
def presetLlava : RunPreset :=
  { key := "llava"
    folder := "Validation_Run_llava"
    face_detection := "llava:7b,qwen3-vl"
    description := "Ollama vision face detection (llava + qwen fallback)." }

/-- The `PRESETS` registry, an insertion-ordered dict (lines 35-54). -/
def PRESETS : List (String × RunPreset) :=
  [("run", presetRun), ("opencv", presetOpencv), ("llava", presetLlava)]

/-- `run_arg.split(",")`. -/
def splitComma (s : String) : List String :=
  (splitOnChar ',' s.toList).map String.mk

/-- The comma-separated keys of a selector: stripped parts, empties dropped
(line 86). -/
def selectorKeys (runArg : String) : List String :=
  ((splitComma runArg).map pyStrip).filter (fun k => k ≠ "")

/-- The keys of a selector that are not in the registry (line 87). -/
def invalidKeys (runArg : String) : List String :=
  (selectorKeys runArg).filter (fun k => (lookupKey k PRESETS).isNone)

/-- The `ValueError` message of `resolve_selected_runs` (line 89): every
invalid key, comma-joined. -/
def invalidMessage (invalid : List String) : String :=
  let joined := joinComma invalid
  s!"Invalid run key(s): {joined}"

/-- `resolve_selected_runs` (lines 82-90): `"all"` (case-insensitive, after
stripping) expands to the full registry in its defined order; otherwise every
key must exist, else a `ValueError` listing all invalid keys. -/
def resolveSelectedRuns (runArg : String) : Except String (List RunPreset) :=
  if pyLower (pyStrip runArg) = "all" then
    Except.ok [presetRun, presetOpencv, presetLlava]
  else
    let invalid := invalidKeys runArg
    if invalid.isEmpty then
      Except.ok ((selectorKeys runArg).filterMap (fun k => lookupKey k PRESETS))
    else Except.error (invalidMessage invalid)

/-- The per-preset filesystem actions of the suite's run loop (lines
157-168): each selected preset's output folder is deleted (if present) and
the validation is run into it.  Resolution failure produces no action list
at all — the `ValueError` is raised before the loop. -/
def suiteActions (runArg : String) : Except String (List String) :=
  match resolveSelectedRuns runArg with
  | Except.error e => Except.error e
  | Except.ok sel => Except.ok (sel.map (fun p => "rmtree+run " ++ p.folder))

/-! ## Cross-run comparison (`compare_validation_runs.py`)

A run directory holds, per team, the contents of `<run>/<team>/Generated`
(`none` when that directory does not exist).  `sha256` digests are compared
for equality only; the digest is modelled as the identity on file contents
(a collision-free stand-in: two files compare hash-equal iff their bytes are
equal). -/

/-- One `Validation_Run*` directory. -/
structure RunDir where
  name : String
  teams : List (String × List GenFile)
deriving DecidableEq

/-- The hardcoded team list of `build_report` (line 30). -/
def theTeams : List String := ["Spain", "Switzerland"]

/-- Does a file name match the glob `*.jpg`? -/
def matchesJpg (name : String) : Bool :=
  let cs := name.toList
  decide (4 ≤ cs.length) && decide (cs.drop (cs.length - 4) = ".jpg".toList)

/-- `list_generated` (lines 18-22): `{p.stem: p for p in d.glob("*.jpg")}`,
empty for a missing directory. -/
def listGen (run : RunDir) (team : String) : List (String × GenFile) :=
  match lookupKey team run.teams with
  | none => []
  | some files =>
    files.filterMap (fun f => if matchesJpg f.name then some (pathStem f.name, f) else none)

/-- The content digest seen for an id on one side of a pairwise comparison. -/
def hashAt (gen : List (String × GenFile)) (pid : String) : Option (List Nat) :=
  (lookupKey pid gen).map (fun f => f.content)

/-- All index pairs `i < j` of a list, in loop order (lines 58-59). -/
def allPairs {α : Type} : List α → List (α × α)
  | [] => []
  | x :: xs => (xs.map (fun y => (x, y))) ++ allPairs xs

/-- One row of the pairwise hash comparison table (lines 60-70). -/
structure MatrixEntry where
  team : String
  runA : String
  runB : String
  common_count : Nat
  same_count : Nat
  diff_count : Nat
deriving DecidableEq

/-- The row for one team and one ordered pair of runs: `common` is the sorted
intersection of id sets, `same` counts hash-equal common ids, and
`diff = len(common) - same`. -/
def entryFor (team : String) (a b : RunDir) : MatrixEntry :=
  let ga := listGen a team
  let gb := listGen b team
  let common := setInter (ga.map Prod.fst) (gb.map Prod.fst)
  let same := common.countP (fun pid => decide (hashAt ga pid = hashAt gb pid))
  { team := team
    runA := a.name
    runB := b.name
    common_count := common.length
    same_count := same
    diff_count := common.length - same }

/-- The full per-team pairwise matrix of `build_report` (lines 41-70). -/
def buildMatrix (runs : List RunDir) : List MatrixEntry :=
  (theTeams.map (fun t => (allPairs runs).map (fun pr => entryFor t pr.1 pr.2))).flatten

/-! ## Test vectors from the spec (§8) -/

/-- A minimal JPEG: SOI, then an SOF0 segment (length 9) whose height field is
100 and width field is 200, padded so the segment fits the buffer. -/
def demoJpeg : List Nat :=
  [0xFF, 0xD8, 0xFF, 0xC0, 0x00, 0x09, 0x08, 0x00, 0x64, 0x00, 0xC8, 0x00, 0x00]

/-- A minimal PNG: signature, chunk length, `IHDR` tag, width 64, height 32. -/
def demoPng : List Nat :=
  [0x89, 0x50, 0x4E, 0x47, 0x0D, 0x0A, 0x1A, 0x0A,
   0x00, 0x00, 0x00, 0x0D,
   0x49, 0x48, 0x44, 0x52,
   0x00, 0x00, 0x00, 0x40,
   0x00, 0x00, 0x00, 0x20]

/-- A team environment that fails at the prepare step (its input-photos
directory is missing, so no players can be synthesized). -/
def demoEnvErr : TeamEnv :=
  { name := "Spain"
    prepareOutcome := Except.error "No parsable photos found for team 'Spain'"
    mapCmd := ["dotnet", "run"]
    mapOutcome := ProcOutcome.completed 3 ""
    mappedCsvExists := true
    generateCmd := ["dotnet", "run"]
    generateOutcome := ProcOutcome.completed 0 ""
    inputPhotosDir := none
    expectedPortraitsDir := none
    generatedDir := [] }

/-- A team environment whose whole pipeline succeeds. -/
def demoEnvOk : TeamEnv :=
  { name := "Switzerland"
    prepareOutcome := Except.ok ()
    mapCmd := ["dotnet", "run"]
    mapOutcome := ProcOutcome.completed 5 ""
    mappedCsvExists := true
    generateCmd := ["dotnet", "run"]
    generateOutcome := ProcOutcome.completed 0 ""
    inputPhotosDir := some []
    expectedPortraitsDir := some []
    generatedDir := [] }

/-- A team whose expected-portraits directory does not exist but whose
stages all succeed. -/
def demoEnvNoExpected : TeamEnv :=
  { name := "Spain"
    prepareOutcome := Except.ok ()
    mapCmd := ["dotnet", "run"]
    mapOutcome := ProcOutcome.completed 7 ""
    mappedCsvExists := true
    generateCmd := ["dotnet", "run"]
    generateOutcome := ProcOutcome.completed 0 ""
    inputPhotosDir := some [GenFile.mk "Claudia_Pina_250101503.jpg" [1, 2, 3]]
    expectedPortraitsDir := none
    generatedDir := [GenFile.mk "250101503.jpg" [9, 9]] }

/-- The statistics `demoEnvOk`'s compare step produces (all directories
empty). -/
def demoStats : TeamStats :=
  { inputCount := 0, expectedCount := 0, generatedCount := 0, commonCount := 0,
    coveragePercent := 0, avgExpectedKb := 0, avgGeneratedKb := 0,
    missingExpected := [], unexpectedGenerated := [] }

/-- Two run directories for the cross-run comparison test vectors. -/
def demoRunA : RunDir :=
  { name := "Validation_Run"
    teams := [("Spain", [GenFile.mk "p1.jpg" [1, 2], GenFile.mk "p2.jpg" [3]])] }

/-- The second demo run differs from `demoRunA` in `p2.jpg`'s content. -/
def demoRunB : RunDir :=
  { name := "Validation_Run_opencv"
    teams := [("Spain", [GenFile.mk "p1.jpg" [1, 2], GenFile.mk "p2.jpg" [4]])] }

/-- A second minimal PNG whose header encodes width 32, height 64. -/
def demoPng2 : List Nat :=
  [0x89, 0x50, 0x4E, 0x47, 0x0D, 0x0A, 0x1A, 0x0A,
   0x00, 0x00, 0x00, 0x0D,
   0x49, 0x48, 0x44, 0x52,
   0x00, 0x00, 0x00, 0x20,
   0x00, 0x00, 0x00, 0x40]

/-- A 64x32 PNG file. -/
def demoPngA : GenFile := GenFile.mk "a.png" demoPng

/-- A 32x64 PNG file. -/
def demoPngB : GenFile := GenFile.mk "b.png" demoPng2

/-! # Proofs -/

/-- In-bounds indexing succeeds. -/
theorem byteAt_ok (data : List Nat) (i : Nat) (h : i < data.length) :
    byteAt data i = Except.ok (data.get ⟨i, h⟩) := by
  simp [byteAt, h]

/-- In-bounds indexing never raises. -/
theorem byteAt_ne_error (data : List Nat) (i : Nat) (h : i < data.length) (e : String) :
    byteAt data i ≠ Except.error e := by
  simp [byteAt, h]

/-- The JPEG marker scan never reaches an out-of-range index: every branch
guards its reads. -/
theorem jpegScan_ok (data : List Nat) (i : Nat) : ∃ o, jpegScan data i = Except.ok o := by
  induction i using jpegScan.induct data with
  | case1 x hg e hb => exact absurd hb (byteAt_ne_error _ _ (by omega) _)
  | case2 x hg b0 hb hne ih =>
    rw [jpegScan, dif_pos hg, hb]
    simp only [if_pos hne]
    exact ih
  | case3 x hg b0 hb hne e hb2 => exact absurd hb2 (byteAt_ne_error _ _ (by omega) _)
  | case4 x hg b0 hb hne m hb2 hm ih =>
    rw [jpegScan, dif_pos hg, hb]
    simp only [if_neg hne, hb2, if_pos hm]
    exact ih
  | case5 x hg b0 hb hne m hb2 hm hlen =>
    rw [jpegScan, dif_pos hg, hb]
    simp only [if_neg hne, hb2, if_neg hm, if_pos hlen]
    exact ⟨none, rfl⟩
  | case6 x hg b0 hb hne m hb2 hm hlen s0 s1 hs1 hs0 segLen hseg =>
    rw [jpegScan, dif_pos hg, hb]
    simp only [if_neg hne, hb2, if_neg hm, if_neg hlen, hs0, hs1]
    simp only [dif_pos hseg]
    exact ⟨none, rfl⟩
  | case7 x hg b0 hb hne m hb2 hm hlen s0 s1 hs1 hs0 segLen hseg hsof hlen2 =>
    rw [jpegScan, dif_pos hg, hb]
    simp only [if_neg hne, hb2, if_neg hm, if_neg hlen, hs0, hs1]
    simp only [dif_neg hseg, if_pos hsof, if_pos hlen2]
    exact ⟨none, rfl⟩
  | case8 x hg b0 hb hne m hb2 hm hlen s0 s1 hs1 hs0 segLen hseg hsof hlen2 h1 h2 w1 w2 hw2 hw1 hh2 hh1 =>
    rw [jpegScan, dif_pos hg, hb]
    simp only [if_neg hne, hb2, if_neg hm, if_neg hlen, hs0, hs1]
    simp only [dif_neg hseg, if_pos hsof, if_neg hlen2, hh1, hh2, hw1, hw2]
    exact ⟨_, rfl⟩
  | case9 x hg b0 hb hne m hb2 hm hlen s0 s1 hs1 hs0 segLen hseg hsof hlen2 hF =>
    exact absurd (byteAt_ok data (x + 2 + 3) (by omega)) fun h =>
      hF _ _ _ _ h (byteAt_ok _ _ (by omega)) (byteAt_ok _ _ (by omega))
        (byteAt_ok _ _ (by omega))
  | case10 x hg b0 hb hne m hb2 hm hlen s0 s1 hs1 hs0 segLen hseg hsof ih =>
    rw [jpegScan, dif_pos hg, hb]
    simp only [if_neg hne, hb2, if_neg hm, if_neg hlen, hs0, hs1]
    simp only [dif_neg hseg, if_neg hsof]
    exact ih
  | case11 x hg b0 hb hne m hb2 hm hlen hF =>
    exact absurd (byteAt_ok data (x + 2) (by omega)) fun h =>
      hF _ _ h (byteAt_ok _ _ (by omega))
  | case12 x hg =>
    rw [jpegScan, dif_neg hg]
    exact ⟨none, rfl⟩

/-- The JPEG decoder never raises either. -/
theorem jpegSize_ok (data : List Nat) : ∃ o, jpegSize data = Except.ok o := by
  by_cases hlen : data.length < 4
  · rw [jpegSize, if_pos hlen]
    exact ⟨none, rfl⟩
  · rw [jpegSize, if_neg hlen]
    cases hv0 : byteAt data 0 with
    | error e => exact absurd hv0 (byteAt_ne_error _ _ (by omega) _)
    | ok b0 =>
      by_cases hb0 : b0 ≠ 0xFF
      · exact ⟨none, by simp [hb0]⟩
      · cases hv1 : byteAt data 1 with
        | error e => exact absurd hv1 (byteAt_ne_error _ _ (by omega) _)
        | ok b1 =>
          by_cases hb1 : b1 ≠ 0xD8
          · exact ⟨none, by simp [hb0, hb1]⟩
          · obtain ⟨o, ho⟩ := jpegScan_ok data 2
            exact ⟨o, by simp [hb0, hb1, ho]⟩

/-- The PNG decoder is straight-line and never raises. -/
theorem pngSize_ok (data : List Nat) : ∃ o, pngSize data = Except.ok o := by
  rw [pngSize]
  split
  · exact ⟨none, rfl⟩
  · split
    · exact ⟨none, rfl⟩
    · exact ⟨_, rfl⟩

/-- C4: the JPEG and PNG size decoders are total — on every byte buffer they
return either a `(width, height)` pair or no dimensions, never an exception;
the minimal JPEG with SOF height 100 / width 200 decodes to `(200, 100)`, the
minimal PNG with header width 64 / height 32 decodes to `(64, 32)`, and every
truncation of either buffer short of the required bytes yields no
dimensions. -/
theorem decoder_total_and_contract :
    (∀ data : List Nat, ∃ o, jpegSize data = Except.ok o) ∧
    (∀ data : List Nat, ∃ o, pngSize data = Except.ok o) ∧
    jpegSize demoJpeg = Except.ok (some (200, 100)) ∧
    pngSize demoPng = Except.ok (some (64, 32)) ∧
    (∀ n, n < 13 → jpegSize (demoJpeg.take n) = Except.ok none) ∧
    (∀ n, n < 24 → pngSize (demoPng.take n) = Except.ok none) := by
  refine ⟨jpegSize_ok, pngSize_ok, ?_, by rfl, ?_, ?_⟩
  · rw [jpegSize]
    norm_num [byteAt, demoJpeg]
    rw [jpegScan]
    norm_num [byteAt]
  · intro n hn
    interval_cases n <;>
      (rw [jpegSize]; norm_num [byteAt, demoJpeg];
        (try (rw [jpegScan]; norm_num [byteAt])))
  · intro n hn
    interval_cases n <;> rfl

/-- C4 witness: concrete truncations discharge the hypotheses of the
truncation clauses. -/
theorem decoder_total_and_contract_witness :
    (10 < 13 ∧ jpegSize (demoJpeg.take 10) = Except.ok none) ∧
    (20 < 24 ∧ pngSize (demoPng.take 20) = Except.ok none) :=
  ⟨⟨by norm_num, decoder_total_and_contract.2.2.2.2.1 10 (by norm_num)⟩,
   ⟨by norm_num, decoder_total_and_contract.2.2.2.2.2 20 (by norm_num)⟩⟩

/-- Membership in a sorted set difference. -/
theorem mem_setMinus (ex gen : List String) (x : String) :
    x ∈ setMinus ex gen ↔ x ∈ ex ∧ x ∉ gen := by
  simp [setMinus, List.mem_insertionSort, List.mem_filter, List.mem_dedup]

/-- Membership in a sorted set intersection. -/
theorem mem_setInter (ex gen : List String) (x : String) :
    x ∈ setInter ex gen ↔ x ∈ ex ∧ x ∈ gen := by
  simp [setInter, List.mem_insertionSort, List.mem_filter, List.mem_dedup]

/-- Set differences come out sorted. -/
theorem sorted_setMinus (ex gen : List String) : List.Sorted (· ≤ ·) (setMinus ex gen) :=
  List.sorted_insertionSort _ _

/-- Set intersections come out sorted. -/
theorem sorted_setInter (ex gen : List String) : List.Sorted (· ≤ ·) (setInter ex gen) :=
  List.sorted_insertionSort _ _

/-- C2: for every pair of artifact ID sets, `missing` and `unexpected` are
disjoint, `missing ∪ common` is exactly the expected ID set, `unexpected ∪
common` is exactly the generated ID set (all as membership equalities, with
`missing = expected − generated`, `unexpected = generated − expected`,
`common = expected ∩ generated`), and each of the three lists is sorted
lexicographically. -/
theorem artifact_set_algebra (ex gen : List String) :
    (∀ x, ¬(x ∈ missingIds ex gen ∧ x ∈ unexpectedIds ex gen)) ∧
    (∀ x, (x ∈ missingIds ex gen ∨ x ∈ commonIds ex gen) ↔ x ∈ ex) ∧
    (∀ x, (x ∈ unexpectedIds ex gen ∨ x ∈ commonIds ex gen) ↔ x ∈ gen) ∧
    (∀ x, x ∈ missingIds ex gen ↔ x ∈ ex ∧ x ∉ gen) ∧
    (∀ x, x ∈ unexpectedIds ex gen ↔ x ∈ gen ∧ x ∉ ex) ∧
    (∀ x, x ∈ commonIds ex gen ↔ x ∈ ex ∧ x ∈ gen) ∧
    List.Sorted (· ≤ ·) (missingIds ex gen) ∧
    List.Sorted (· ≤ ·) (unexpectedIds ex gen) ∧
    List.Sorted (· ≤ ·) (commonIds ex gen) := by
  refine ⟨fun x => ?_, fun x => ?_, fun x => ?_, fun x => mem_setMinus ex gen x,
    fun x => mem_setMinus gen ex x, fun x => mem_setInter ex gen x,
    sorted_setMinus ex gen, sorted_setMinus gen ex, sorted_setInter ex gen⟩
  · rw [missingIds, unexpectedIds, mem_setMinus, mem_setMinus]
    tauto
  · rw [missingIds, commonIds, mem_setMinus, mem_setInter]
    tauto
  · rw [unexpectedIds, commonIds, mem_setMinus, mem_setInter]
    tauto

/-- C2 witness: the union equation instantiated on concrete ID sets. -/
theorem artifact_set_algebra_witness :
    ("a" ∈ missingIds ["a", "b"] ["b", "c"] ∨ "a" ∈ commonIds ["a", "b"] ["b", "c"]) ↔
      "a" ∈ (["a", "b"] : List String) :=
  (artifact_set_algebra ["a", "b"] ["b", "c"]).2.1 "a"

/-- A filter keeps the whole list exactly when every element passes. -/
theorem filter_length_eq_iff {α : Type} (p : α → Bool) (l : List α) :
    (l.filter p).length = l.length ↔ ∀ x ∈ l, p x := by
  constructor
  · intro h
    exact List.filter_eq_self.mp ((List.filter_sublist l).eq_of_length h)
  · intro h
    rw [List.filter_eq_self.mpr h]

/-- For an ID set (no duplicates), the common count reaches the expected
count exactly when every expected ID was generated. -/
theorem commonCount_eq_iff (ex gen : List String) (hnd : ex.Nodup) :
    commonCount ex gen = ex.length ↔ ∀ x ∈ ex, x ∈ gen := by
  rw [commonCount, List.Nodup.dedup hnd, filter_length_eq_iff]
  simp

/-- C3: for every pair of artifact ID sets, the coverage percentage is `0`
on an empty expected set and `100 × |common| / |expected|` otherwise; it
always lies in `[0, 100]` and, for a non-empty expected set, equals `100`
exactly when every expected ID is in the generated set. -/
theorem coverage_percent_correct (ex gen : List String) (hnd : ex.Nodup) :
    (ex = [] → coveragePercent ex gen = 0) ∧
    (ex ≠ [] → coveragePercent ex gen = 100 * (commonCount ex gen : ℚ) / (ex.length : ℚ)) ∧
    0 ≤ coveragePercent ex gen ∧ coveragePercent ex gen ≤ 100 ∧
    (ex ≠ [] → (coveragePercent ex gen = 100 ↔ ∀ x ∈ ex, x ∈ gen)) := by
  by_cases hex : ex = []
  · subst hex
    exact ⟨fun _ => rfl, fun h => absurd rfl h, le_refl 0,
      by norm_num [coveragePercent], fun h => absurd rfl h⟩
  · have hne : ex.isEmpty = false := by
      cases ex
      · exact absurd rfl hex
      · rfl
    have hn0 : 0 < (ex.length : ℚ) := by
      have : 0 < ex.length := List.length_pos.mpr hex
      exact_mod_cast this
    have hcleN : commonCount ex gen ≤ ex.length :=
      Nat.le_trans (List.length_filter_le _ _) (List.Sublist.length_le (List.dedup_sublist ex))
    have hcle : (commonCount ex gen : ℚ) ≤ (ex.length : ℚ) := by exact_mod_cast hcleN
    have hcov : coveragePercent ex gen = (commonCount ex gen : ℚ) / (ex.length : ℚ) * 100 := by
      rw [coveragePercent, hne]
      rfl
    refine ⟨fun h => absurd h hex, fun _ => by rw [hcov]; ring, ?_, ?_, fun _ => ?_⟩
    · rw [hcov]
      positivity
    · rw [hcov, div_mul_eq_mul_div, div_le_iff₀ hn0]
      nlinarith
    · rw [hcov, div_mul_eq_mul_div, div_eq_iff (ne_of_gt hn0)]
      rw [← commonCount_eq_iff ex gen hnd]
      constructor
      · intro h
        have : (commonCount ex gen : ℚ) = (ex.length : ℚ) := by linarith
        exact_mod_cast this
      · intro h
        rw [h]
        ring

/-- C3 witness: a concrete nodup expected set. -/
theorem coverage_percent_correct_witness :
    (["a", "b"] : List String).Nodup ∧
    (0 ≤ coveragePercent ["a", "b"] ["b"] ∧ coveragePercent ["a", "b"] ["b"] ≤ 100) :=
  ⟨by decide, (coverage_percent_correct ["a", "b"] ["b"] (by decide)).2.2.1,
    (coverage_percent_correct ["a", "b"] ["b"] (by decide)).2.2.2.1⟩

/-- C5: splitting the filename stem on `_`, fewer than 3 tokens fails to
parse; otherwise the last token is the external ID and, of the remaining
tokens, a single one is the family name with empty sur name, while with more
the last is the sur name and the earlier ones, space-joined, the family
name; `"Claudia_Pina_250101503.jpg"` parses to `(Claudia, Pina, 250101503)`
and `"Messi_10.jpg"` fails. -/
theorem parse_photo_filename_spec :
    (∀ fileName, (splitUnderscore (pathStem fileName)).length < 3 →
      parsePhotoFilename fileName = none) ∧
    (∀ fileName, 3 ≤ (splitUnderscore (pathStem fileName)).length →
      parsePhotoFilename fileName =
        some
          (if (splitUnderscore (pathStem fileName)).dropLast.length = 1 then
            (splitUnderscore (pathStem fileName)).dropLast.headD ""
           else joinSpace (splitUnderscore (pathStem fileName)).dropLast.dropLast,
           if (splitUnderscore (pathStem fileName)).dropLast.length = 1 then ""
           else (splitUnderscore (pathStem fileName)).dropLast.getLastD "",
           (splitUnderscore (pathStem fileName)).getLastD "")) ∧
    parsePhotoFilename "Claudia_Pina_250101503.jpg" = some ("Claudia", "Pina", "250101503") ∧
    parsePhotoFilename "Messi_10.jpg" = none := by
  refine ⟨fun f h => ?_, fun f h => ?_, by decide, by decide⟩
  · simp only [parsePhotoFilename]
    rw [if_pos h]
  · simp only [parsePhotoFilename]
    rw [if_neg (by omega)]
    by_cases h1 : (splitUnderscore (pathStem f)).dropLast.length = 1
    · rw [if_pos h1, if_pos h1, if_pos h1]
    · rw [if_neg h1, if_neg h1, if_neg h1]

/-- C5 witness: the general rule applied to the concrete example name. -/
theorem parse_photo_filename_spec_witness :
    3 ≤ (splitUnderscore (pathStem "Claudia_Pina_250101503.jpg")).length ∧
    parsePhotoFilename "Claudia_Pina_250101503.jpg" =
      some
        (if (splitUnderscore (pathStem "Claudia_Pina_250101503.jpg")).dropLast.length = 1 then
          (splitUnderscore (pathStem "Claudia_Pina_250101503.jpg")).dropLast.headD ""
         else joinSpace (splitUnderscore (pathStem "Claudia_Pina_250101503.jpg")).dropLast.dropLast,
         if (splitUnderscore (pathStem "Claudia_Pina_250101503.jpg")).dropLast.length = 1 then ""
         else (splitUnderscore (pathStem "Claudia_Pina_250101503.jpg")).dropLast.getLastD "",
         (splitUnderscore (pathStem "Claudia_Pina_250101503.jpg")).getLastD "") :=
  ⟨by decide, parse_photo_filename_spec.2.1 "Claudia_Pina_250101503.jpg" (by decide)⟩

/-- C6 counterexample: the execution error raised for a disallowed non-zero
exit does not carry the captured output — two runs of the same command whose
processes print different text produce the identical error, whose text is
exactly the exit code and the command line. -/
theorem runStage_error_ignores_output :
    runStage ["foo", "bar"] (ProcOutcome.completed 2 "some captured output") false 5 =
      Except.error "Command failed (2): foo bar" ∧
    runStage ["foo", "bar"] (ProcOutcome.completed 2 "entirely different output") false 5 =
      Except.error "Command failed (2): foo bar" := by
  constructor
  · rfl
  · rfl

/-- C6 (amended): if the process exits non-zero and `allowNonZeroExit` is
false, the executor fails with an execution error carrying the exit code and
the command line (no output is captured — the error is the same whatever the
process printed); if `allowNonZeroExit` is true, the exit code is returned
as data and no error is raised. -/
theorem runStage_exit_code_policy (cmd : List String) (code : Int) (output : String)
    (t : Nat) (hnz : code ≠ 0) :
    runStage cmd (ProcOutcome.completed code output) false t =
      Except.error (failMessage code cmd) ∧
    (∀ output', runStage cmd (ProcOutcome.completed code output') false t =
      runStage cmd (ProcOutcome.completed code output) false t) ∧
    runStage cmd (ProcOutcome.completed code output) true t = Except.ok code := by
  refine ⟨?_, fun output' => rfl, ?_⟩
  · rw [runStage, if_pos ⟨hnz, rfl⟩]
  · rw [runStage, if_neg]
    simp

/-- C6 witness: the amended policy at a concrete non-zero exit. -/
theorem runStage_exit_code_policy_witness :
    (2 : Int) ≠ 0 ∧
    runStage ["foo"] (ProcOutcome.completed 2 "out") false 7 =
      Except.error (failMessage 2 ["foo"]) :=
  ⟨by decide, (runStage_exit_code_policy ["foo"] 2 "out" 7 (by decide)).1⟩

/-- C7: the literal selector `"all"` resolves to exactly the presets
`[run, opencv, llava]` in that order; any other selector with at least one
key missing from the registry fails with a `ValueError` listing every
invalid key, and the suite plans no filesystem action in that case;
concretely, `"bogus"` fails reporting `bogus`. -/
theorem preset_selector_resolution :
    resolveSelectedRuns "all" = Except.ok [presetRun, presetOpencv, presetLlava] ∧
    (∀ arg, pyLower (pyStrip arg) ≠ "all" → invalidKeys arg ≠ [] →
      resolveSelectedRuns arg = Except.error (invalidMessage (invalidKeys arg)) ∧
      suiteActions arg = Except.error (invalidMessage (invalidKeys arg))) ∧
    resolveSelectedRuns "bogus" = Except.error "Invalid run key(s): bogus" ∧
    suiteActions "bogus" = Except.error "Invalid run key(s): bogus" := by
  refine ⟨by rfl, fun arg hall hinv => ?_, by rfl, by rfl⟩
  have hres : resolveSelectedRuns arg = Except.error (invalidMessage (invalidKeys arg)) := by
    rw [resolveSelectedRuns, if_neg hall]
    rw [if_neg]
    intro hemp
    exact hinv (List.isEmpty_iff.mp hemp)
  exact ⟨hres, by rw [suiteActions, hres]⟩

/-- C7 witness: the invalid-selector clause at the concrete selector. -/
theorem preset_selector_resolution_witness :
    pyLower (pyStrip "bogus,run") ≠ "all" ∧ invalidKeys "bogus,run" ≠ [] ∧
    resolveSelectedRuns "bogus,run" =
      Except.error (invalidMessage (invalidKeys "bogus,run")) :=
  ⟨by decide, by decide,
    (preset_selector_resolution.2.1 "bogus,run" (by decide) (by decide)).1⟩

/-- One matrix row balances: hash-equal plus hash-different common IDs is
all common IDs, because `diff` is defined as the remainder. -/
theorem entryFor_counts (t : String) (a b : RunDir) :
    (entryFor t a b).same_count + (entryFor t a b).diff_count = (entryFor t a b).common_count ∧
    (entryFor t a b).same_count ≤ (entryFor t a b).common_count := by
  have hle : (setInter ((listGen a t).map Prod.fst) ((listGen b t).map Prod.fst)).countP
      (fun pid => decide (hashAt (listGen a t) pid = hashAt (listGen b t) pid)) ≤
      (setInter ((listGen a t).map Prod.fst) ((listGen b t).map Prod.fst)).length :=
    List.countP_le_length _
  simp only [entryFor]
  constructor
  · omega
  · exact hle

/-- C8: the cross-run comparison emits one row per team and per ordered pair
of runs, and in every row the same-hash count plus the different-hash count
equals the number of common generated-artifact IDs. -/
theorem cross_run_matrix (runs : List RunDir) :
    (buildMatrix runs).length = theTeams.length * (allPairs runs).length ∧
    ∀ e ∈ buildMatrix runs,
      e.same_count + e.diff_count = e.common_count ∧ e.same_count ≤ e.common_count := by
  constructor
  · simp [buildMatrix, theTeams]
    omega
  · intro e he
    simp only [buildMatrix, theTeams, List.mem_flatten, List.mem_map] at he
    obtain ⟨l, ⟨t, ht, hl⟩, hel⟩ := he
    subst hl
    obtain ⟨pr, hpr, hpe⟩ := List.mem_map.mp hel
    subst hpe
    exact entryFor_counts t pr.1 pr.2

/-- C8 witness: the balance equation on a concrete pair of run
directories. -/
theorem cross_run_matrix_witness :
    entryFor "Spain" demoRunA demoRunB ∈ buildMatrix [demoRunA, demoRunB] ∧
    (entryFor "Spain" demoRunA demoRunB).same_count +
        (entryFor "Spain" demoRunA demoRunB).diff_count =
      (entryFor "Spain" demoRunA demoRunB).common_count := by
  have h : buildMatrix [demoRunA, demoRunB] =
      [entryFor "Spain" demoRunA demoRunB, entryFor "Switzerland" demoRunA demoRunB] := rfl
  have hm : entryFor "Spain" demoRunA demoRunB ∈ buildMatrix [demoRunA, demoRunB] := by
    rw [h]
    exact List.mem_cons_self _ _
  exact ⟨hm, ((cross_run_matrix [demoRunA, demoRunB]).2 _ hm).1⟩

/-- With `continueOnError = true`, the loop never aborts and yields exactly
one result per team, each determined by that team's own pipeline. -/
theorem runTeams_true_eq (mapT genT : Nat) (envs : List TeamEnv) :
    runTeams true mapT genT envs = (envs.map (resultOf mapT genT), none) := by
  induction envs with
  | nil => rfl
  | cons env rest ih =>
    cases h : teamBody env mapT genT with
    | ok s => simp [runTeams, h, ih, resultOf]
    | error m => simp [runTeams, h, ih, resultOf]

/-- Both outcome rows carry the team's name. -/
theorem resultOf_name (mapT genT : Nat) (env : TeamEnv) :
    (resultOf mapT genT env).name = env.name := by
  rw [resultOf]
  cases teamBody env mapT genT with
  | ok s => rfl
  | error m => rfl

/-- Every recorded team's header appears in the report. -/
theorem header_mem_report (results : List TeamResult) (r : TeamResult) (hr : r ∈ results) :
    headerLine r.name ∈ reportLines results := by
  rw [reportLines]
  refine List.mem_cons_of_mem _ (List.mem_flatten.mpr ⟨teamBlock r, ?_, ?_⟩)
  · exact List.mem_map_of_mem _ hr
  · rw [teamBlock]
    exact List.mem_cons_self _ _

/-- With `continueOnError = false`, the first failing team's exception
propagates out of the loop, whatever teams follow. -/
theorem runTeams_false_abort (mapT genT : Nat) (pre : List TeamEnv) (env : TeamEnv)
    (msg : String) (rest : List TeamEnv)
    (hpre : ∀ p ∈ pre, ∃ s, teamBody p mapT genT = Except.ok s)
    (henv : teamBody env mapT genT = Except.error msg) :
    (runTeams false mapT genT (pre ++ env :: rest)).2 = some msg := by
  induction pre with
  | nil => simp [runTeams, henv]
  | cons p pre' ih =>
    obtain ⟨s, hs⟩ := hpre p (List.mem_cons_self _ _)
    have := ih (fun q hq => hpre q (List.mem_cons_of_mem _ hq))
    simp [runTeams, hs, this]

/-- C1: with `continueOnError = true` every team's exception is caught at the
team boundary — the run yields one result per team (an error row with the
exception message and all numeric fields zero for a failing team, an `ok`
row for a succeeding one), the report is written and every team's header
appears in it; with `continueOnError = false` the first failing team's
exception aborts the run before any further team and no report is
produced. -/
theorem team_failure_isolation (mapT genT : Nat) :
    (∀ envs : List TeamEnv,
      runTeams true mapT genT envs = (envs.map (resultOf mapT genT), none) ∧
      runMain true mapT genT envs =
        Except.ok (reportLines (envs.map (resultOf mapT genT))) ∧
      ∀ env ∈ envs, headerLine env.name ∈ reportLines (envs.map (resultOf mapT genT))) ∧
    (∀ env msg, teamBody env mapT genT = Except.error msg →
      resultOf mapT genT env = errResult env.name msg ∧
      errResult env.name msg =
        { name := env.name, status := "error", errorMsg := some msg, input_count := 0,
          expected_count := 0, generated_count := 0, common_count := 0,
          coverage_percent := 0, avg_expected_kb := 0, avg_generated_kb := 0,
          missing_expected := [], unexpected_generated := [], map_csv := none,
          generated_dir := none }) ∧
    (∀ env s, teamBody env mapT genT = Except.ok s →
      resultOf mapT genT env = okResult env s ∧ (okResult env s).status = "ok") ∧
    (∀ pre env msg rest,
      (∀ p ∈ pre, ∃ s, teamBody p mapT genT = Except.ok s) →
      teamBody env mapT genT = Except.error msg →
      runMain false mapT genT (pre ++ env :: rest) = Except.error msg) := by
  refine ⟨fun envs => ⟨runTeams_true_eq mapT genT envs, ?_, fun env he => ?_⟩,
    fun env msg h => ⟨by rw [resultOf, h], rfl⟩,
    fun env s h => ⟨by rw [resultOf, h], rfl⟩,
    fun pre env msg rest hpre henv => ?_⟩
  · rw [runMain, runTeams_true_eq]
  · rw [← resultOf_name mapT genT env]
    exact header_mem_report _ _ (List.mem_map_of_mem _ he)
  · rw [runMain, runTeams_false_abort mapT genT pre env msg rest hpre henv]

/-- C1 witness: a run of a failing team followed by a valid one, under both
values of the flag. -/
theorem team_failure_isolation_witness :
    teamBody demoEnvErr 600 1200 =
      Except.error "No parsable photos found for team 'Spain'" ∧
    teamBody demoEnvOk 600 1200 = Except.ok demoStats ∧
    resultOf 600 1200 demoEnvErr =
      errResult demoEnvErr.name "No parsable photos found for team 'Spain'" ∧
    (okResult demoEnvOk demoStats).status = "ok" ∧
    headerLine demoEnvErr.name ∈
      reportLines ([demoEnvErr, demoEnvOk].map (resultOf 600 1200)) ∧
    headerLine demoEnvOk.name ∈
      reportLines ([demoEnvErr, demoEnvOk].map (resultOf 600 1200)) ∧
    runMain false 600 1200 ([] ++ demoEnvErr :: [demoEnvOk]) =
      Except.error "No parsable photos found for team 'Spain'" :=
  ⟨rfl, rfl,
    ((team_failure_isolation 600 1200).2.1 demoEnvErr _ rfl).1,
    ((team_failure_isolation 600 1200).2.2.1 demoEnvOk demoStats rfl).2,
    ((team_failure_isolation 600 1200).1 [demoEnvErr, demoEnvOk]).2.2 demoEnvErr
      (List.mem_cons_self _ _),
    ((team_failure_isolation 600 1200).1 [demoEnvErr, demoEnvOk]).2.2 demoEnvOk
      (List.mem_cons_of_mem _ (List.mem_cons_self _ _)),
    (team_failure_isolation 600 1200).2.2.2 [] demoEnvErr
      "No parsable photos found for team 'Spain'" [demoEnvOk]
      (fun p hp => absurd hp (List.not_mem_nil p)) rfl⟩

/-- C10: a missing directory yields an empty artifact mapping instead of
raising (`_list_generated_ids` and `_collect` both check existence first);
consequently a team whose expected-portraits directory is absent, with its
other stages succeeding, completes the compare step with status `ok`,
expected count `0` and coverage `0.0`, rather than being recorded as an
error. -/
theorem missing_expected_dir_still_ok (mapT genT : Nat) (env : TeamEnv)
    (hexp : env.expectedPortraitsDir = none)
    (hprep : env.prepareOutcome = Except.ok ())
    (hmap : ∃ c out, env.mapOutcome = ProcOutcome.completed c out)
    (hcsv : env.mappedCsvExists = true)
    (hgen : ∃ out, env.generateOutcome = ProcOutcome.completed 0 out)
    (hin : ∃ files, env.inputPhotosDir = some files) :
    listGeneratedIds none = [] ∧
    collectFiles none = [] ∧
    ∃ s, teamBody env mapT genT = Except.ok s ∧
      s.expectedCount = 0 ∧ s.coveragePercent = 0 ∧ s.commonCount = 0 ∧
      s.missingExpected = [] ∧ (resultOf mapT genT env).status = "ok" := by
  obtain ⟨c, cout, hmo⟩ := hmap
  obtain ⟨gout, hgo⟩ := hgen
  obtain ⟨files, hif⟩ := hin
  have hbody : teamBody env mapT genT = Except.ok
      { inputCount := (files.filter (fun f => isImage f.name)).length
        expectedCount := 0
        generatedCount := (listGeneratedIds (some env.generatedDir)).length
        commonCount := 0
        coveragePercent := 0
        avgExpectedKb := 0
        avgGeneratedKb := avgFileKb env.generatedDir
        missingExpected := []
        unexpectedGenerated := unexpectedIds [] (listGeneratedIds (some env.generatedDir)) } := by
    simp only [teamBody, hprep, hmo, hcsv, hgo, hif, hexp, runStage, countImages]
    norm_num [listGeneratedIds, coveragePercent, commonCount, missingIds, setMinus,
      dirFiles, avgFileKb, List.insertionSort]
  refine ⟨rfl, rfl, _, hbody, rfl, rfl, rfl, rfl, ?_⟩
  rw [resultOf, hbody]
  rfl

/-- C10 witness: the concrete team with an absent expected-portraits
directory. -/
theorem missing_expected_dir_still_ok_witness :
    demoEnvNoExpected.expectedPortraitsDir = none ∧
    ∃ s, teamBody demoEnvNoExpected 600 1200 = Except.ok s ∧
      s.expectedCount = 0 ∧ s.coveragePercent = 0 ∧ s.commonCount = 0 ∧
      s.missingExpected = [] ∧ (resultOf 600 1200 demoEnvNoExpected).status = "ok" :=
  ⟨rfl,
    (missing_expected_dir_still_ok 600 1200 demoEnvNoExpected rfl rfl
      ⟨7, "", rfl⟩ rfl ⟨"", rfl⟩
      ⟨[GenFile.mk "Claudia_Pina_250101503.jpg" [1, 2, 3]], rfl⟩).2.2⟩

/-- Bumping a key leaves the key sequence unchanged, or appends the new key
at the end. -/
theorem bump_keys (k : String) (acc : List (String × Nat)) :
    (bump k acc).map Prod.fst =
      if k ∈ acc.map Prod.fst then acc.map Prod.fst else acc.map Prod.fst ++ [k] := by
  induction acc with
  | nil => simp [bump]
  | cons kv rest ih =>
    obtain ⟨k', c⟩ := kv
    by_cases h : k' = k
    · subst h
      simp [bump]
    · simp only [bump, if_neg h, List.map_cons, ih]
      by_cases hmem : k ∈ rest.map Prod.fst
      · simp [hmem, h, Ne.symm h]
      · simp [hmem, h, Ne.symm h]

/-- The histogram's keys are distinct. -/
theorem freqList_keys_nodup (files : List GenFile) :
    ((freqList files).map Prod.fst).Nodup := by
  suffices h : ∀ acc : List (String × Nat), (acc.map Prod.fst).Nodup →
      ((files.foldl
        (fun acc f => match dimKey f with | none => acc | some k => bump k acc)
        acc).map Prod.fst).Nodup by
    exact h [] (by simp)
  induction files with
  | nil => intro acc h; exact h
  | cons f rest ih =>
    intro acc h
    rw [List.foldl_cons]
    cases hd : dimKey f with
    | none => exact ih acc h
    | some k =>
      refine ih _ ?_
      rw [bump_keys]
      by_cases hmem : k ∈ acc.map Prod.fst
      · rw [if_pos hmem]
        exact h
      · rw [if_neg hmem]
        simp [List.nodup_append, h, hmem]

/-- The histogram has no duplicate entries. -/
theorem freqList_nodup (files : List GenFile) : (freqList files).Nodup :=
  List.Nodup.of_map _ (freqList_keys_nodup files)

/-- Two distinct members of a list occur in one of the two relative
orders. -/
theorem sublist_pair_of_mem {α : Type} {l : List α} {a b : α} (ha : a ∈ l) (hb : b ∈ l)
    (hne : a ≠ b) : [a, b].Sublist l ∨ [b, a].Sublist l := by
  induction l with
  | nil => exact absurd ha (List.not_mem_nil a)
  | cons x xs ih =>
    rcases List.mem_cons.mp ha with hax | hax
    · rcases List.mem_cons.mp hb with hbx | hbx
      · exact absurd (hax.trans hbx.symm) hne
      · subst hax
        exact Or.inl (List.Sublist.cons₂ _ (List.singleton_sublist.mpr hbx))
    · rcases List.mem_cons.mp hb with hbx | hbx
      · subst hbx
        exact Or.inr (List.Sublist.cons₂ _ (List.singleton_sublist.mpr hax))
      · exact (ih hax hbx).imp (List.Sublist.cons x) (List.Sublist.cons x)

/-- In a duplicate-free list, two elements cannot occur in both relative
orders. -/
theorem sublist_pair_antisymm {α : Type} {l : List α} (hnd : l.Nodup) {a b : α}
    (h1 : [a, b].Sublist l) (h2 : [b, a].Sublist l) : a = b := by
  induction l with
  | nil => exact absurd h1 (by simp)
  | cons x xs ih =>
    have hx : x ∉ xs := (List.nodup_cons.mp hnd).1
    cases h1 with
    | cons _ h1' =>
      cases h2 with
      | cons _ h2' => exact ih (List.nodup_cons.mp hnd).2 h1' h2'
      | cons₂ _ h2' => exact absurd (h1'.subset (by simp)) hx
    | cons₂ _ h1' =>
      cases h2 with
      | cons _ h2' => exact absurd (h2'.subset (by simp)) hx
      | cons₂ _ h2' => rfl

/-- Bumping a key increments its count. -/
theorem lookupKey_bump_self (k : String) (acc : List (String × Nat)) :
    lookupKey k (bump k acc) = some ((lookupKey k acc).getD 0 + 1) := by
  induction acc with
  | nil => simp [bump, lookupKey]
  | cons kv rest ih =>
    obtain ⟨k', c⟩ := kv
    by_cases h : k' = k
    · subst h
      simp [bump, lookupKey]
    · simp [bump, lookupKey, h, ih]

/-- Bumping a key leaves the other counts unchanged. -/
theorem lookupKey_bump_other (k k' : String) (hne : k' ≠ k) (acc : List (String × Nat)) :
    lookupKey k (bump k' acc) = lookupKey k acc := by
  induction acc with
  | nil => simp [bump, lookupKey, hne]
  | cons kv rest ih =>
    obtain ⟨k'', c⟩ := kv
    by_cases h : k'' = k'
    · subst h
      simp [bump, lookupKey, hne]
    · simp [bump, lookupKey, h, ih]

/-- Scanning a file list onto an accumulator adds each key's occurrence
count to the accumulator's entry. -/
theorem lookupKey_freq_fold (k : String) (l : List GenFile) :
    ∀ acc : List (String × Nat),
    lookupKey k
        (l.foldl (fun acc f => match dimKey f with | none => acc | some kk => bump kk acc) acc) =
      match lookupKey k acc with
      | some n => some (n + l.countP (fun f => decide (dimKey f = some k)))
      | none =>
        if l.countP (fun f => decide (dimKey f = some k)) = 0 then none
        else some (l.countP (fun f => decide (dimKey f = some k))) := by
  induction l with
  | nil =>
    intro acc
    cases hacc : lookupKey k acc <;> simp [hacc]
  | cons f rest ih =>
    intro acc
    rw [List.foldl_cons, ih, List.countP_cons]
    cases hd : dimKey f with
    | none =>
      simp only [hd]
      cases hacc : lookupKey k acc <;>
        simp [hacc, -List.countP_eq_zero]
    | some kk =>
      by_cases hkk : kk = k
      · subst hkk
        simp only [hd, lookupKey_bump_self]
        cases hacc : lookupKey kk acc <;>
          by_cases hc : rest.countP (fun f => decide (dimKey f = some kk)) = 0 <;>
            simp [hacc, hc, -List.countP_eq_zero] <;> omega
      · simp only [hd, lookupKey_bump_other k kk hkk]
        cases hacc : lookupKey k acc <;>
          simp [hacc, hkk, -List.countP_eq_zero]

/-- C9: the dominant-dimension histogram counts, for every bucket label, the
number of decodable files with those dimensions; the result is the first 5
entries of the stable descending-count sort of the first-seen-ordered
buckets, hence has at most 5 entries, is ordered by descending count, draws
its entries from the scan's buckets, and breaks count ties by first-seen
order (equal-count entries appear in the same relative order as in the
scan). -/
theorem top_dims_spec (files : List GenFile) :
    (∀ k, lookupKey k (freqList files) =
      (if files.countP (fun f => decide (dimKey f = some k)) = 0 then none
       else some (files.countP (fun f => decide (dimKey f = some k))))) ∧
    topDims files = (List.insertionSort byCountDesc (freqList files)).take 5 ∧
    (topDims files).length ≤ 5 ∧
    (topDims files).Pairwise byCountDesc ∧
    (∀ kv, kv ∈ topDims files → kv ∈ freqList files) ∧
    (∀ a b, [a, b].Sublist (topDims files) → a.2 = b.2 →
      [a, b].Sublist (freqList files)) := by
  refine ⟨fun k => ?_, rfl, ?_, ?_, fun kv hkv => ?_, fun a b hsub heq => ?_⟩
  · have h := lookupKey_freq_fold k files []
    simpa [freqList, lookupKey] using h
  · exact List.length_take_le 5 _
  · exact List.Pairwise.sublist (List.take_sublist 5 _) (List.sorted_insertionSort _ _)
  · exact (List.mem_insertionSort _).mp ((List.take_sublist 5 _).subset hkv)
  · have hs : [a, b].Sublist (List.insertionSort byCountDesc (freqList files)) :=
      hsub.trans (List.take_sublist 5 _)
    have hnd : (freqList files).Nodup := freqList_nodup files
    have hsortnd : (List.insertionSort byCountDesc (freqList files)).Nodup :=
      ((List.perm_insertionSort byCountDesc (freqList files)).nodup_iff).mpr hnd
    have hne : a ≠ b := by
      intro hab
      subst hab
      have h2 : ([a, a] : List (String × Nat)).Nodup := List.Nodup.sublist hs hsortnd
      simp at h2
    by_cases hfreq : [a, b].Sublist (freqList files)
    · exact hfreq
    · have ha : a ∈ freqList files := (List.mem_insertionSort _).mp (hs.subset (by simp))
      have hb : b ∈ freqList files := (List.mem_insertionSort _).mp (hs.subset (by simp))
      have hba : [b, a].Sublist (freqList files) := by
        rcases sublist_pair_of_mem ha hb hne with h | h
        · exact absurd h hfreq
        · exact h
      have hr : byCountDesc b a := by rw [byCountDesc, heq]
      have hba' : [b, a].Sublist (List.insertionSort byCountDesc (freqList files)) :=
        List.pair_sublist_insertionSort hr hba
      exact absurd (sublist_pair_antisymm hsortnd hs hba') hne

/-- C9 witness: two decodable files with distinct dimensions tie at count 1
and keep their scan order through the sort. -/
theorem top_dims_spec_witness :
    [(("64x32" : String), 1), (("32x64" : String), 1)].Sublist (topDims [demoPngA, demoPngB]) ∧
    [(("64x32" : String), 1), (("32x64" : String), 1)].Sublist (freqList [demoPngA, demoPngB]) := by
  have h : topDims [demoPngA, demoPngB] = [("64x32", 1), ("32x64", 1)] := rfl
  have hsub : [(("64x32" : String), 1), (("32x64" : String), 1)].Sublist
      (topDims [demoPngA, demoPngB]) := by
    rw [h]
  exact ⟨hsub, (top_dims_spec [demoPngA, demoPngB]).2.2.2.2.2 _ _ hsub rfl⟩

end PhotoMapperAI
